import Mathlib

/-!
Verification development for the gopher-guard Kubernetes controller.

The Go source is shallowly embedded: pure functions become Lean functions,
external calls (cluster API, GitHub API, LLM HTTP calls, Prometheus) become
explicit outcome parameters, and each controller step that mutates the stored
resource is modelled as explicit state passing over the resource value.
Machine integers (int32 counters) are modelled as Int; none of the verified
properties involve overflow. Fallible Go functions returning (T, error) are
modelled as Except String T.
-/

namespace GopherGuard

/-- Compact model of corev1.ContainerState: at most one of the three optional
pointers (Running, Waiting, Terminated) is set; a state with none set is
noState. Waiting and Terminated carry their Reason; Terminated also carries
the exit code. -/
inductive CState where
  | running : CState
  | waiting (reason : String) : CState
  | terminated (reason : String) (exitCode : Int) : CState
  | noState : CState
  deriving DecidableEq, Repr

/-- Model of corev1.ContainerStatus with the fields the controller reads:
Name, RestartCount, State and LastTerminationState. -/
structure ContainerStatus where
  name : String
  restartCount : Int
  state : CState
  lastTermination : CState
  deriving DecidableEq, Repr

/-- Model of corev1.Pod with the fields read by detectAnomaly and the
observability collector: metadata, status phase, node, container statuses and
the spec containers (name, image) used for image lookup. -/
structure Pod where
  ns : String
  name : String
  phase : String
  nodeName : String
  containerStatuses : List ContainerStatus
  specContainers : List (String × String)
  deriving DecidableEq, Repr

/-- Model of appsv1.Deployment with the fields the controller reads:
metadata, Spec.Selector.MatchLabels (none models a nil Selector) and
Status.UnavailableReplicas. -/
structure Deployment where
  ns : String
  name : String
  matchLabels : Option (List (String × String))
  unavailableReplicas : Int
  deriving DecidableEq, Repr

/-- selectorFromDeployment: errors when Spec.Selector is nil or MatchLabels is
empty, otherwise returns the match labels. -/
def selectorFromDeployment (d : Deployment) : Except String (List (String × String)) :=
  match d.matchLabels with
  | none => .error ("deployment " ++ d.ns ++ "/" ++ d.name ++ " has no matchLabels selector")
  | some sel =>
    if sel.length = 0 then
      .error ("deployment " ++ d.ns ++ "/" ++ d.name ++ " has no matchLabels selector")
    else
      .ok sel

/-- Reason string of rule 1 of detectAnomaly (restart count at or above the
threshold). -/
def restartMsg (p : Pod) (cs : ContainerStatus) : String :=
  "pod " ++ p.ns ++ "/" ++ p.name ++ " container \"" ++ cs.name ++ "\" has restarted "
    ++ toString cs.restartCount ++ " times"

/-- Waiting-state check of detectAnomaly rule 2: returns the waiting reason
when it is CrashLoopBackOff or OOMKilled. -/
def waitingBad (cs : ContainerStatus) : Option String :=
  match cs.state with
  | .waiting r => if r = "CrashLoopBackOff" ∨ r = "OOMKilled" then some r else none
  | _ => none

/-- Last-termination check of detectAnomaly rule 3: true when the last
terminated state has reason OOMKilled. -/
def lastTermOOMKilled (cs : ContainerStatus) : Bool :=
  match cs.lastTermination with
  | .terminated r _ => r = "OOMKilled"
  | _ => false

/-- Per-container body of the detectAnomaly scan loop: the three early-return
checks in source order (restart count, bad waiting reason, OOMKilled last
termination), returning the reason string of the first match. -/
def containerRule (thr : Int) (p : Pod) (cs : ContainerStatus) : Option String :=
  if cs.restartCount ≥ thr then
    some (restartMsg p cs)
  else
    match waitingBad cs with
    | some r =>
      some ("pod " ++ p.ns ++ "/" ++ p.name ++ " container \"" ++ cs.name ++ "\" is in " ++ r)
    | none =>
      if lastTermOOMKilled cs then
        some ("pod " ++ p.ns ++ "/" ++ p.name ++ " container \"" ++ cs.name ++ "\" was OOMKilled")
      else
        none

/-- detectAnomaly core: scans pods (in list order) and their container
statuses (in order) with containerRule; when no container matches, falls back
to the workload-level unavailable-replica check. Returns (anomalous, reason). -/
def detectAnomaly (d : Deployment) (pods : List Pod) (thr : Int) : Bool × String :=
  match pods.findSome? (fun p => p.containerStatuses.findSome? (containerRule thr p)) with
  | some r => (true, r)
  | none =>
    if d.unavailableReplicas > 0 then
      (true, "deployment " ++ d.ns ++ "/" ++ d.name ++ " has "
        ++ toString d.unavailableReplicas ++ " unavailable replicas")
    else
      (false, "")

/-- detectAnomaly including its fallible prelude: the selector extraction and
the pod list call (whose outcome is a parameter). -/
def detectAnomalyE (d : Deployment) (podsRes : Except String (List Pod)) (thr : Int) :
    Except String (Bool × String) :=
  match selectorFromDeployment d with
  | .error e => .error e
  | .ok _ =>
    match podsRes with
    | .error e => .error ("listing pods: " ++ e)
    | .ok pods => .ok (detectAnomaly d pods thr)

/-- Spec-side qualifying-container condition, written from the claim: restart
count at or above threshold, or waiting with reason CrashLoopBackOff or
OOMKilled, or last-terminated reason OOMKilled. -/
def containerQualifies (thr : Int) (cs : ContainerStatus) : Prop :=
  cs.restartCount ≥ thr ∨
  (∃ r, cs.state = CState.waiting r ∧ (r = "CrashLoopBackOff" ∨ r = "OOMKilled")) ∨
  (∃ ec, cs.lastTermination = CState.terminated "OOMKilled" ec)

/-- Spec-side anomaly condition, written from the claim: some container of
some pod qualifies, or the workload has unavailable replicas. -/
def anomalyCondition (d : Deployment) (pods : List Pod) (thr : Int) : Prop :=
  (∃ p ∈ pods, ∃ cs ∈ p.containerStatuses, containerQualifies thr cs) ∨
    d.unavailableReplicas > 0

/-- Model of the llm.Diagnosis structure: rootCause, patch (YAMLPatch) and
wittyLine, all strings decoded from the oracle JSON. -/
structure Diagnosis where
  rootCause : String
  yamlPatch : String
  wittyLine : String
  deriving DecidableEq, Repr

/-- Outcome of one Groq HTTP round-trip in diagnoseOnce, up to the point where
the choice content is JSON-unmarshalled into a Diagnosis: each constructor is
one of the early-error exits of diagnoseOnce, and choice carries the result of
unmarshalling the first choice content. -/
inductive GroqHTTP where
  | httpErr (msg : String) : GroqHTTP
  | readErr (msg : String) : GroqHTTP
  | unmarshalErr (msg : String) : GroqHTTP
  | apiError (etype emsg : String) : GroqHTTP
  | noChoices (status : Int) : GroqHTTP
  | choice (contentUnmarshal : Except String Diagnosis) : GroqHTTP
  deriving Repr

/-- parseDiagnosis: rejects an unmarshal failure, then rejects a Diagnosis with
an empty rootCause, otherwise accepts. -/
def parseDiagnosis (unmarshalRes : Except String Diagnosis) : Except String Diagnosis :=
  match unmarshalRes with
  | .error e => .error ("parsing LLM JSON response: " ++ e)
  | .ok d =>
    if d.rootCause = "" then
      .error ("LLM returned empty rootCause — likely a prompt/format issue")
    else
      .ok d

/-- diagnoseOnce: maps each HTTP-level outcome to its error message, and feeds
a received choice content through parseDiagnosis. -/
def diagnoseOnce (a : GroqHTTP) : Except String Diagnosis :=
  match a with
  | .httpErr m => .error ("http POST groq: " ++ m)
  | .readErr m => .error ("reading response body: " ++ m)
  | .unmarshalErr m => .error ("decoding groq response: " ++ m)
  | .apiError etype emsg => .error ("groq API error (" ++ etype ++ "): " ++ emsg)
  | .noChoices status => .error ("groq returned no choices (status " ++ toString status ++ ")")
  | .choice u => parseDiagnosis u

/-- Diagnose: the two-iteration retry loop of GroqClient.Diagnose, with the
outcome of each attempt given as a parameter. It returns the first success,
and after both attempts fail it wraps the last error. -/
def Diagnose (a0 a1 : GroqHTTP) : Except String Diagnosis :=
  match diagnoseOnce a0 with
  | .ok d => .ok d
  | .error _ =>
    match diagnoseOnce a1 with
    | .ok d => .ok d
    | .error e1 => .error ("groq diagnosis failed after 2 attempts: " ++ e1)

/-- Number of diagnoseOnce invocations the Diagnose loop performs: one when
the first attempt succeeds, two otherwise. -/
def diagnoseAttempts (a0 : GroqHTTP) : Nat :=
  match diagnoseOnce a0 with
  | .ok _ => 1
  | .error _ => 2

/-- ApplyYAMLPatch, parameterised over the three conversion collaborators it
calls (sigs.k8s.io/yaml YAMLToJSON, strategicpatch.StrategicMergePatch with
the Deployment schema, and JSONToYAML). An empty patch string short-circuits
before any conversion. -/
def ApplyYAMLPatch (yamlToJSON : String → Except String String)
    (strategicMergePatch : String → String → Except String String)
    (jsonToYAML : String → Except String String)
    (currentYAML : String) (patchYAML : String) : Except String String :=
  if patchYAML = "" then
    .ok currentYAML
  else
    match yamlToJSON currentYAML with
    | .error e => .error ("converting current YAML to JSON: " ++ e)
    | .ok currentJSON =>
      match yamlToJSON patchYAML with
      | .error e => .error ("converting patch YAML to JSON: " ++ e)
      | .ok patchJSON =>
        match strategicMergePatch currentJSON patchJSON with
        | .error e => .error ("applying strategic merge patch: " ++ e)
        | .ok patchedJSON =>
          match jsonToYAML patchedJSON with
          | .error e => .error ("converting patched JSON back to YAML: " ++ e)
          | .ok patchedYAML => .ok patchedYAML

/-- MaxHealingAttempts: the attempt cap constant from the github package. -/
def MaxHealingAttempts : Int := 5

/-- PRResult returned by CreateHealingPR on success. -/
structure PRResult where
  prURL : String
  branchName : String
  filePath : String
  deriving DecidableEq, Repr

/-- The three repository write calls CreateHealingPR can issue, in order. -/
inductive GHWrite where
  | createBranch : GHWrite
  | commitFile : GHWrite
  | openPR : GHWrite
  deriving DecidableEq, Repr

/-- Outcomes of the external GitHub API calls made by one CreateHealingPR run,
plus the YAML conversion collaborators used by ApplyYAMLPatch. findFile is the
outcome of the conventional-path probe (path, decoded content, blob SHA). -/
structure GHEnv where
  findFile : Except String (String × String × String)
  yamlToJSON : String → Except String String
  strategicMergePatch : String → String → Except String String
  jsonToYAML : String → Except String String
  defaultBranch : Except String String
  createBranchRes : Except String Unit
  commitRes : Except String Unit
  openPRRes : Except String String

/-- CreateHealingPR: the find → patch → no-op check → branch → commit → PR
pipeline, returning the result and the trace of repository write calls that
were issued (createBranch, commitFile, openPR, in order). Any step failure
returns immediately, so no later call appears in the trace. -/
def CreateHealingPR (env : GHEnv) (deploymentName : String) (diag : Diagnosis) (ts : Nat) :
    Except String PRResult × List GHWrite :=
  match env.findFile with
  | .error e => (.error ("finding deployment manifest: " ++ e), [])
  | .ok (path, content, _sha) =>
    match ApplyYAMLPatch env.yamlToJSON env.strategicMergePatch env.jsonToYAML
        content diag.yamlPatch with
    | .error e => (.error ("applying YAML patch to " ++ path ++ ": " ++ e), [])
    | .ok patched =>
      if patched = content then
        (.error ("patch produced no change to " ++ path ++ " — skipping PR"), [])
      else
        match env.defaultBranch with
        | .error e => (.error ("getting default branch: " ++ e), [])
        | .ok _base =>
          let branchName := "gopherguard/fix-" ++ deploymentName ++ "-" ++ toString ts
          match env.createBranchRes with
          | .error e =>
            (.error ("creating branch " ++ branchName ++ ": " ++ e), [.createBranch])
          | .ok _ =>
            match env.commitRes with
            | .error e =>
              (.error ("committing patched file: " ++ e), [.createBranch, .commitFile])
            | .ok _ =>
              match env.openPRRes with
              | .error e =>
                (.error ("opening pull request: " ++ e),
                  [.createBranch, .commitFile, .openPR])
              | .ok url =>
                (.ok { prURL := url, branchName := branchName, filePath := path },
                  [.createBranch, .commitFile, .openPR])

/-- Split of a character list at its first slash: the part before and the
part after, or none when there is no slash (the two-way split performed by
strings.SplitN with n = 2 and a slash separator). -/
def splitFirstSlash : List Char → Option (List Char × List Char)
  | [] => none
  | c :: cs =>
    if c = '/' then
      some ([], cs)
    else
      match splitFirstSlash cs with
      | none => none
      | some (a, b) => some (c :: a, b)

/-- SplitRepo: splits an owner/repo string at the first slash, rejecting a
missing slash or an empty owner or repo part (strings.SplitN with n = 2
yields fewer than two parts exactly when there is no slash). -/
def SplitRepo (gitRepo : String) : Except String (String × String) :=
  match splitFirstSlash gitRepo.toList with
  | none => .error ("invalid gitRepo \"" ++ gitRepo ++ "\": expected \"owner/repo\"")
  | some (o, r) =>
    let owner := String.mk o
    let repo := String.mk r
    if owner = "" ∨ repo = "" then
      .error ("invalid gitRepo \"" ++ gitRepo ++ "\": expected \"owner/repo\"")
    else
      .ok (owner, repo)

/-- Model of corev1.Event with the fields FetchKubeEvents reads. Times are
naturals (0 models the zero time); eventTimeMonotonic models whether the
EventTime value carries a monotonic clock reading, which is what the source
comparison of EventTime with its Truncate(0) detects. -/
structure EventRec where
  etype : String
  reason : String
  message : String
  count : Int
  lastTimestamp : Nat
  eventTime : Nat
  eventTimeMonotonic : Bool
  involvedKind : String
  involvedName : String
  deriving DecidableEq, Repr

/-- Trimmed event shape produced by FetchKubeEvents (observability.KubeEvent). -/
structure KubeEvent where
  etype : String
  reason : String
  message : String
  count : Int
  lastSeen : Nat
  involvedObject : String
  deriving DecidableEq, Repr

/-- maxEvents: the cap on returned events. -/
def maxEvents : Nat := 20

/-- The last-seen time FetchKubeEvents assigns to an event: LastTimestamp,
falling back to EventTime only when LastTimestamp is zero and EventTime
carries a monotonic reading. -/
def lastSeenOf (ev : EventRec) : Nat :=
  if ev.lastTimestamp = 0 ∧ ev.eventTimeMonotonic then ev.eventTime else ev.lastTimestamp

/-- The keep condition of the FetchKubeEvents loop: the source skips an event
only when it is both not a Warning and not involving one of the given names,
so an event is kept when it is a Warning or involves one of the names. -/
def keepEvent (involved : List String) (ev : EventRec) : Bool :=
  ev.etype = "Warning" ∨ involved.contains ev.involvedName

/-- The KubeEvent record FetchKubeEvents builds from a kept corev1.Event. -/
def trimEvent (ev : EventRec) : KubeEvent :=
  { etype := ev.etype
    reason := ev.reason
    message := ev.message
    count := ev.count
    lastSeen := lastSeenOf ev
    involvedObject := ev.involvedKind ++ "/" ++ ev.involvedName }

/-- Newest-first order on trimmed events, as used by the sort call. -/
def newerFirst (a b : KubeEvent) : Prop := b.lastSeen ≤ a.lastSeen

instance : DecidableRel newerFirst := fun a b => Nat.decLe b.lastSeen a.lastSeen

instance : IsTotal KubeEvent newerFirst :=
  ⟨fun a b => (Nat.le_total b.lastSeen a.lastSeen).elim Or.inl Or.inr⟩

instance : IsTrans KubeEvent newerFirst :=
  ⟨fun _ _ _ hab hbc => Nat.le_trans hbc hab⟩

/-- FetchKubeEvents: lists namespace events (outcome given as a parameter),
keeps those passing keepEvent, trims them, sorts newest-first and caps the
result at maxEvents. The source sorts with sort.Slice and a strict newest-first
comparison; it is modelled here by insertion sort for the reflexive closure of
that order, a deterministic refinement with the same sortedness and multiset
content. -/
def FetchKubeEvents (eventsList : Except String (List EventRec)) (involved : List String) :
    Except String (List KubeEvent) :=
  match eventsList with
  | .error e => .error ("listing events: " ++ e)
  | .ok items =>
    let kept := items.filter (keepEvent involved)
    let sorted := List.insertionSort newerFirst (kept.map trimEvent)
    .ok (sorted.take maxEvents)

/-- Prometheus CPU/memory reading (observability.PrometheusSnapshot). -/
structure PrometheusSnapshot where
  cpuUsageMillicores : Float
  memUsageMiB : Float
  queryTime : Nat

/-- Per-container snapshot assembled by the collector. -/
structure ContainerSnapshot where
  name : String
  image : String
  restartCount : Int
  state : String
  lastLogs : String
  deriving DecidableEq, Repr

/-- Per-pod snapshot assembled by the collector. -/
structure PodSnapshot where
  name : String
  phase : String
  nodeName : String
  containers : List ContainerSnapshot
  deriving DecidableEq, Repr

/-- The full observability context handed to the diagnosis engine. -/
structure ObservabilityContext where
  deploymentName : String
  ns : String
  anomalyReason : String
  collectedAt : Nat
  pods : List PodSnapshot
  kubeEvents : List KubeEvent
  metrics : Option PrometheusSnapshot

/-- containerStateString: compact state tag for a container status. -/
def containerStateString (cs : ContainerStatus) : String :=
  match cs.state with
  | .running => "running"
  | .waiting r => "waiting:" ++ r
  | .terminated r ec => "terminated:" ++ r ++ ":exit" ++ toString ec
  | .noState => "unknown"

/-- imageForContainer: image of the spec container with the given name,
falling back to unknown. -/
def imageForContainer (p : Pod) (containerName : String) : String :=
  match p.specContainers.find? (fun c => c.1 = containerName) with
  | some c => c.2
  | none => "unknown"

/-- Outcomes of the external calls one Collector.Collect run makes: the pod
list, the per-container log fetch (keyed by pod and container name, covering
the current-then-previous fallback of FetchContainerLogs), the namespace event
list, and the optional Prometheus query (none models a nil Prometheus client;
the inner Option models QueryWorkload returning no snapshot for an empty URL). -/
structure CollectEnv where
  podsRes : Except String (List Pod)
  logFetch : String → String → Except String String
  eventsListRes : Except String (List EventRec)
  prom : Option (Except String (Option PrometheusSnapshot))

/-- The container snapshot Collect builds for one container status: on a log
fetch failure the placeholder string is stored instead of failing. -/
def collectContainer (env : CollectEnv) (p : Pod) (cs : ContainerStatus) : ContainerSnapshot :=
  { name := cs.name
    image := imageForContainer p cs.name
    restartCount := cs.restartCount
    state := containerStateString cs
    lastLogs :=
      match env.logFetch p.name cs.name with
      | .ok s => s
      | .error e => "[log unavailable: " ++ e ++ "]" }

/-- The pod snapshot Collect builds for one pod. -/
def collectPod (env : CollectEnv) (p : Pod) : PodSnapshot :=
  { name := p.name
    phase := p.phase
    nodeName := p.nodeName
    containers := p.containerStatuses.map (collectContainer env p) }

/-- Collector.Collect: a nil selector or a pod list failure is a hard error;
log fetch failures degrade to placeholders, an event fetch failure leaves the
event list empty, and a missing Prometheus client or failed query leaves the
metrics section absent. -/
def Collect (env : CollectEnv) (d : Deployment) (anomalyReason : String) (now : Nat) :
    Except String ObservabilityContext :=
  match d.matchLabels with
  | none => .error ("deployment " ++ d.ns ++ "/" ++ d.name ++ " has no selector")
  | some _ =>
    match env.podsRes with
    | .error e => .error ("listing pods: " ++ e)
    | .ok pods =>
      let involved := d.name :: pods.map (fun p => p.name)
      let podSnaps := pods.map (collectPod env)
      let events :=
        match FetchKubeEvents env.eventsListRes involved with
        | .ok evs => evs
        | .error _ => []
      let metrics :=
        match env.prom with
        | none => none
        | some (.error _) => none
        | some (.ok m) => m
      .ok { deploymentName := d.name
            ns := d.ns
            anomalyReason := anomalyReason
            collectedAt := now
            pods := podSnaps
            kubeEvents := events
            metrics := metrics }

/-- Lifecycle phase constants of the AegisWatch status. -/
def PhaseWatching : String := "Watching"

/-- Healthy phase constant. -/
def PhaseHealthy : String := "Healthy"

/-- Healing phase constant. -/
def PhaseHealing : String := "Healing"

/-- Degraded phase constant. -/
def PhaseDegraded : String := "Degraded"

/-- TargetRef of the AegisWatch spec (name and optional namespace). -/
structure TargetRef where
  name : String
  ns : String
  deriving DecidableEq, Repr

/-- AegisWatch spec: the owner-edited fields the controller reads. -/
structure AegisWatchSpec where
  targetRef : TargetRef
  llmProvider : String
  llmModel : String
  llmSecretRef : String
  gitRepo : String
  gitSecretRef : String
  safeMode : Bool
  restartThreshold : Int
  deriving DecidableEq, Repr

/-- AegisWatch status: the controller-owned fields. -/
structure AegisWatchStatus where
  phase : String
  lastDiagnosis : String
  lastPRUrl : String
  healingScore : Int
  lastAnomalyTime : Option Nat
  deriving DecidableEq, Repr

/-- The AegisWatch custom resource: metadata, spec and status. -/
structure AegisWatch where
  ns : String
  name : String
  spec : AegisWatchSpec
  status : AegisWatchStatus
  deriving DecidableEq, Repr

/-- A Kubernetes event emitted on the AegisWatch resource (type and reason;
the formatted messages are not modelled). -/
structure KEvent where
  etype : String
  reason : String
  deriving DecidableEq, Repr

/-- The flat webhook payload built by sendNotification (notify.HealingUpdate). -/
structure HealingUpdate where
  deploymentName : String
  ns : String
  diagnosis : Diagnosis
  prURL : String
  healingScore : Int
  safeMode : Bool
  deriving DecidableEq, Repr

/-- How one reconcile invocation ends: requeue after the fixed interval, or
return an error to the manager (also requeued, by controller-runtime). -/
inductive RecResult where
  | requeueAfter : RecResult
  | failed (msg : String) : RecResult
  deriving DecidableEq, Repr

/-- Everything one reconcile invocation did that is observable from outside:
the stored resource after all status patches, the events emitted on the CR in
order, which collaborators were invoked, the notification payload handed to
the webhook client, and how the cycle ended. -/
structure ReconcileOutcome where
  store : AegisWatch
  events : List KEvent
  collectorCalled : Bool
  llmCalled : Bool
  prCalled : Bool
  notification : Option HealingUpdate
  res : RecResult

/-- Outcomes of the external calls one reconcile invocation can make: the
target Deployment get (none models not-found), the pod list, the LLM
diagnosis (covering client construction and both Diagnose attempts), the
GitHub token secret read, the GitHub API call outcomes, and the wall-clock
reading used for timestamps and branch names. -/
structure ReconcileEnv where
  deployment : Option Deployment
  podsRes : Except String (List Pod)
  diagnosisRes : Except String Diagnosis
  githubToken : Except String String
  gh : GHEnv
  now : Nat

/-- patchStatus: re-fetches the stored resource and patches its status
sub-resource with the mutated copy. In the single-writer setting modelled
here the re-fetched resource is the current store; Status().Patch writes only
the status sub-object, so the mutation is a function on the status. Every
mutation function passed in the source touches only status fields. -/
def patchStatus (w : AegisWatch) (mutFn : AegisWatchStatus → AegisWatchStatus) : AegisWatch :=
  { w with status := mutFn w.status }

/-- Result of maybeOpenPR: the error reported to the caller (if any), the PR
URL written through the out-parameter (empty when skipped or failed), whether
CreateHealingPR was invoked, and the events maybeOpenPR itself emitted. -/
structure MPRResult where
  errMsg : Option String
  prURL : String
  prCalled : Bool
  events : List KEvent

/-- maybeOpenPR: skips silently under safe mode or an empty patch; otherwise
reads the GitHub token, splits the repo identity and runs CreateHealingPR,
emitting a PRCreated event and reporting the PR URL on success. -/
def maybeOpenPR (env : ReconcileEnv) (watch : AegisWatch) (d : Deployment) (diag : Diagnosis) :
    MPRResult :=
  if watch.spec.safeMode then
    { errMsg := none, prURL := "", prCalled := false, events := [] }
  else if diag.yamlPatch = "" then
    { errMsg := none, prURL := "", prCalled := false, events := [] }
  else
    match env.githubToken with
    | .error e =>
      { errMsg := some ("reading GitHub token from secret: " ++ e)
        prURL := "", prCalled := false, events := [] }
    | .ok _ =>
      match SplitRepo watch.spec.gitRepo with
      | .error e => { errMsg := some e, prURL := "", prCalled := false, events := [] }
      | .ok _ =>
        match (CreateHealingPR env.gh d.name diag env.now).1 with
        | .error e => { errMsg := some e, prURL := "", prCalled := true, events := [] }
        | .ok result =>
          { errMsg := none, prURL := result.prURL, prCalled := true
            events := [⟨"Normal", "PRCreated"⟩] }

/-- The HealingUpdate payload sendNotification builds: it uses the watch value
fetched at the start of the cycle, and always reports its healing score plus
one. -/
def sendNotificationPayload (watch : AegisWatch) (diag : Diagnosis)
    (prURL targetNS : String) : HealingUpdate :=
  { deploymentName := watch.spec.targetRef.name
    ns := targetNS
    diagnosis := diag
    prURL := prURL
    healingScore := watch.status.healingScore + 1
    safeMode := watch.spec.safeMode }

/-- Reconcile: the main control loop, starting after the AegisWatch fetch
(the fetched value is the parameter). Models the full-feature revision of the
controller: deployment lookup, anomaly detection, the healing-cap guard,
the Healing status patch, diagnosis, maybeOpenPR, the final status patch and
the notification. Status patches are modelled as always succeeding; a patch
failure would only truncate the cycle earlier. The collection step is recorded
by collectorCalled: its outcome never changes control flow, since a collection
failure is replaced by a minimal context. -/
def Reconcile (env : ReconcileEnv) (watch : AegisWatch) : ReconcileOutcome :=
  let targetNS := if watch.spec.targetRef.ns = "" then watch.ns else watch.spec.targetRef.ns
  match env.deployment with
  | none =>
    { store := watch, events := [⟨"Warning", "DeploymentNotFound"⟩]
      collectorCalled := false, llmCalled := false, prCalled := false
      notification := none, res := .requeueAfter }
  | some d =>
    let threshold : Int :=
      if watch.spec.restartThreshold = 0 then 3 else watch.spec.restartThreshold
    match detectAnomalyE d env.podsRes threshold with
    | .error e =>
      { store := watch, events := []
        collectorCalled := false, llmCalled := false, prCalled := false
        notification := none, res := .failed ("detecting anomaly: " ++ e) }
    | .ok (anomaly, _reason) =>
      if anomaly then
        let ev1 : KEvent := ⟨"Warning", "AnomalyDetected"⟩
        if watch.status.healingScore ≥ MaxHealingAttempts then
          { store := watch, events := [ev1, ⟨"Warning", "HealingCapReached"⟩]
            collectorCalled := false, llmCalled := false, prCalled := false
            notification := none, res := .requeueAfter }
        else
          let store1 := patchStatus watch (fun st =>
            { st with phase := PhaseHealing, lastAnomalyTime := some env.now })
          match env.diagnosisRes with
          | .error _ =>
            { store := patchStatus store1 (fun st => { st with phase := PhaseDegraded })
              events := [ev1, ⟨"Warning", "DiagnosisFailed"⟩]
              collectorCalled := true, llmCalled := true, prCalled := false
              notification := none, res := .requeueAfter }
          | .ok diag =>
            let m := maybeOpenPR env watch d diag
            let prEvents :=
              match m.errMsg with
              | some _ => [(⟨"Warning", "PRCreationFailed"⟩ : KEvent)]
              | none => m.events
            let diagSummary := diag.rootCause ++ "\n\n💬 " ++ diag.wittyLine
            let store2 := patchStatus store1 (fun st =>
              let st1 := { st with phase := PhaseDegraded, lastDiagnosis := diagSummary }
              if m.prURL ≠ "" then
                { st1 with lastPRUrl := m.prURL, healingScore := st1.healingScore + 1 }
              else
                st1)
            { store := store2
              events := [ev1, ⟨"Normal", "DiagnosisComplete"⟩] ++ prEvents
              collectorCalled := true, llmCalled := true, prCalled := m.prCalled
              notification := some (sendNotificationPayload watch diag m.prURL targetNS)
              res := .requeueAfter }
      else
        { store := patchStatus watch (fun st => { st with phase := PhaseHealthy })
          events := []
          collectorCalled := false, llmCalled := false, prCalled := false
          notification := none, res := .requeueAfter }

/-- Concrete container status in CrashLoopBackOff, used in example runs. -/
def csCrash : ContainerStatus :=
  { name := "app", restartCount := 0, state := .waiting ("CrashLoopBackOff")
    lastTermination := .noState }

/-- Concrete pod holding csCrash. -/
def pC : Pod :=
  { ns := "default", name := "joke-1", phase := "Running", nodeName := "node-a"
    containerStatuses := [csCrash], specContainers := [("app", "img:1")] }

/-- Concrete target deployment with a valid selector. -/
def dC : Deployment :=
  { ns := "default", name := "joke", matchLabels := some [("app", "joke")]
    unavailableReplicas := 0 }

/-- Concrete AegisWatch spec (safe mode off, default threshold). -/
def specC : AegisWatchSpec :=
  { targetRef := { name := "joke", ns := "" }
    llmProvider := "groq", llmModel := "", llmSecretRef := "llm-secret"
    gitRepo := "acme/repo", gitSecretRef := "git-secret"
    safeMode := false, restartThreshold := 0 }

/-- Concrete watch resource whose healing score already equals the cap. -/
def wCap : AegisWatch :=
  { ns := "default", name := "watch-1", spec := specC
    status := { phase := PhaseDegraded, lastDiagnosis := "", lastPRUrl := ""
                healingScore := 5, lastAnomalyTime := none } }

/-- Concrete watch resource with healing score zero. -/
def wC : AegisWatch :=
  { ns := "default", name := "watch-1", spec := specC
    status := { phase := PhaseWatching, lastDiagnosis := "", lastPRUrl := ""
                healingScore := 0, lastAnomalyTime := none } }

/-- GitHub environment where the manifest probe fails (unused in skip paths). -/
def ghIdle : GHEnv :=
  { findFile := .error ("not found")
    yamlToJSON := fun s => .ok s
    strategicMergePatch := fun a _ => .ok a
    jsonToYAML := fun s => .ok s
    defaultBranch := .ok ("main")
    createBranchRes := .ok ()
    commitRes := .ok ()
    openPRRes := .ok ("https://example.invalid/pr/1") }

/-- GitHub environment where the merge leaves the manifest unchanged, so the
no-op check fires. -/
def ghNoop : GHEnv :=
  { findFile := .ok ("deploy/joke/deployment.yaml", "content", "sha1")
    yamlToJSON := fun s => .ok s
    strategicMergePatch := fun a _ => .ok a
    jsonToYAML := fun s => .ok s
    defaultBranch := .ok ("main")
    createBranchRes := .ok ()
    commitRes := .ok ()
    openPRRes := .ok ("https://example.invalid/pr/1") }

/-- GitHub environment where the merge changes the manifest and every API
call succeeds. -/
def ghOk : GHEnv :=
  { findFile := .ok ("deploy/joke/deployment.yaml", "content", "sha1")
    yamlToJSON := fun s => .ok s
    strategicMergePatch := fun a b => .ok (a ++ b)
    jsonToYAML := fun s => .ok s
    defaultBranch := .ok ("main")
    createBranchRes := .ok ()
    commitRes := .ok ()
    openPRRes := .ok ("https://example.invalid/pr/1") }

/-- Concrete diagnosis with no confident fix (empty patch). -/
def diagNoPatch : Diagnosis :=
  { rootCause := "OOM", yamlPatch := "", wittyLine := "the gopher ran out of burrow" }

/-- Concrete diagnosis carrying a patch. -/
def diagPatch : Diagnosis :=
  { rootCause := "OOM", yamlPatch := "resources: x", wittyLine := "more burrow please" }

/-- Reconcile environment at the healing cap (anomalous pod, diagnosis ready). -/
def envCap : ReconcileEnv :=
  { deployment := some dC, podsRes := .ok [pC], diagnosisRes := .ok diagNoPatch
    githubToken := .ok ("tok"), gh := ghIdle, now := 100 }

/-- Reconcile environment for a cycle whose remediation is skipped because the
diagnosis carries no patch. -/
def envHeal : ReconcileEnv :=
  { deployment := some dC, podsRes := .ok [pC], diagnosisRes := .ok diagNoPatch
    githubToken := .ok ("tok"), gh := ghIdle, now := 100 }

/-- Reconcile environment for a cycle that successfully opens a healing PR. -/
def envPR : ReconcileEnv :=
  { deployment := some dC, podsRes := .ok [pC], diagnosisRes := .ok diagPatch
    githubToken := .ok ("tok"), gh := ghOk, now := 100 }

/-- Concrete Normal-class event involving pod-1. -/
def evNormal : EventRec :=
  { etype := "Normal", reason := "Scheduled", message := "ok", count := 1
    lastTimestamp := 10, eventTime := 0, eventTimeMonotonic := false
    involvedKind := "Pod", involvedName := "pod-1" }

/-- Concrete Warning-class event involving an unrelated object. -/
def evWarnOther : EventRec :=
  { etype := "Warning", reason := "FailedMount", message := "disk", count := 2
    lastTimestamp := 20, eventTime := 0, eventTimeMonotonic := false
    involvedKind := "Pod", involvedName := "other-pod" }

/-- Collection environment whose log fetch, event list and metrics query all
fail, while the pod list succeeds. -/
def collectEnvC : CollectEnv :=
  { podsRes := .ok [pC]
    logFetch := fun _ c => .error ("stream failed for " ++ c)
    eventsListRes := .error ("events api down")
    prom := some (.error ("prom down")) }

theorem findSome?_isSome_iff {α β : Type} (f : α → Option β) (l : List α) :
    (l.findSome? f).isSome = true ↔ ∃ a ∈ l, (f a).isSome = true := by
  induction l with
  | nil => simp [List.findSome?]
  | cons x xs ih =>
    cases hx : f x <;> simp [List.findSome?_cons, hx, ih]

theorem findSome?_mem_of_eq_some {α β : Type} {f : α → Option β} {l : List α} {b : β}
    (h : l.findSome? f = some b) : ∃ a ∈ l, f a = some b := by
  induction l with
  | nil => simp [List.findSome?] at h
  | cons x xs ih =>
    rw [List.findSome?_cons] at h
    cases hx : f x with
    | some v =>
      rw [hx] at h
      exact ⟨x, List.mem_cons_self x xs, hx.trans h⟩
    | none =>
      rw [hx] at h
      obtain ⟨a, ha, hfa⟩ := ih h
      exact ⟨a, List.mem_cons_of_mem x ha, hfa⟩

theorem containerRule_isSome_iff (thr : Int) (p : Pod) (cs : ContainerStatus) :
    (containerRule thr p cs).isSome = true ↔ containerQualifies thr cs := by
  by_cases h1 : cs.restartCount ≥ thr <;>
  cases hs : cs.state <;> cases ht : cs.lastTermination <;>
  simp_all [containerRule, containerQualifies, waitingBad, lastTermOOMKilled] <;>
  split_ifs <;> simp_all

theorem scan_isSome_iff (thr : Int) (pods : List Pod) :
    (pods.findSome?
        (fun p => p.containerStatuses.findSome? (containerRule thr p))).isSome = true ↔
      ∃ p ∈ pods, ∃ cs ∈ p.containerStatuses, containerQualifies thr cs := by
  rw [findSome?_isSome_iff]
  constructor
  · rintro ⟨p, hp, hsome⟩
    rw [findSome?_isSome_iff] at hsome
    obtain ⟨cs, hcs, h⟩ := hsome
    exact ⟨p, hp, cs, hcs, (containerRule_isSome_iff thr p cs).mp h⟩
  · rintro ⟨p, hp, cs, hcs, h⟩
    refine ⟨p, hp, ?_⟩
    rw [findSome?_isSome_iff]
    exact ⟨cs, hcs, (containerRule_isSome_iff thr p cs).mpr h⟩

/-- C2: detectAnomaly returns anomalous exactly when some container qualifies
(restart count at threshold or above, a CrashLoopBackOff or OOMKilled waiting
reason, or an OOMKilled last termination) or the workload has unavailable
replicas; the reason string is the one of the first matching container rule
in scan order (falling back to the unavailable-replica reason); and when no
rule matches the result is not-anomalous with an empty reason. -/
theorem detectAnomaly_correct (d : Deployment) (pods : List Pod) (thr : Int) :
    ((detectAnomaly d pods thr).1 = true ↔ anomalyCondition d pods thr) ∧
    (∀ r,
      pods.findSome? (fun p => p.containerStatuses.findSome? (containerRule thr p)) = some r →
      detectAnomaly d pods thr = (true, r)) ∧
    ((detectAnomaly d pods thr).1 = false → detectAnomaly d pods thr = (false, "")) := by
  have hmain : ∀ r,
      pods.findSome? (fun p => p.containerStatuses.findSome? (containerRule thr p)) = some r →
      detectAnomaly d pods thr = (true, r) := by
    intro r hr
    unfold detectAnomaly
    rw [hr]
  refine ⟨?_, hmain, ?_⟩
  · constructor
    · intro h
      unfold detectAnomaly at h
      cases hf : pods.findSome?
          (fun p => p.containerStatuses.findSome? (containerRule thr p)) with
      | some r =>
        exact Or.inl ((scan_isSome_iff thr pods).mp (by rw [hf]; rfl))
      | none =>
        rw [hf] at h
        by_cases hu : d.unavailableReplicas > 0
        · exact Or.inr hu
        · rw [if_neg hu] at h
          simp at h
    · intro h
      rcases h with hq | hu
      · obtain ⟨r, hr⟩ := Option.isSome_iff_exists.mp ((scan_isSome_iff thr pods).mpr hq)
        rw [hmain r hr]
      · unfold detectAnomaly
        cases hf : pods.findSome?
            (fun p => p.containerStatuses.findSome? (containerRule thr p)) with
        | some r => rfl
        | none => rw [if_pos hu]
  · intro h
    unfold detectAnomaly at h ⊢
    cases hf : pods.findSome?
        (fun p => p.containerStatuses.findSome? (containerRule thr p)) with
    | some r =>
      rw [hf] at h
      simp at h
    | none =>
      rw [hf] at h
      by_cases hu : d.unavailableReplicas > 0
      · simp [hu] at h
      · simp [hu]

/-- Witness for detectAnomaly_correct: a pod in CrashLoopBackOff yields the
anomaly with the waiting-reason message. -/
theorem detectAnomaly_correct_witness :
    detectAnomaly dC [pC] 3 =
      (true, "pod default/joke-1 container \"app\" is in CrashLoopBackOff") :=
  (detectAnomaly_correct dC [pC] 3).2.1 _ (by rfl)

/-- C3: the Diagnose loop performs exactly one retry on any failed attempt
(whatever its cause, including the empty-rootCause rejection in
parseDiagnosis), succeeds as soon as an attempt succeeds, and after two
failed attempts returns a hard error wrapping the last failure. -/
theorem Diagnose_retry_policy (a0 a1 : GroqHTTP) :
    (∀ d, diagnoseOnce a0 = .ok d →
      Diagnose a0 a1 = .ok d ∧ diagnoseAttempts a0 = 1) ∧
    (∀ e0 d, diagnoseOnce a0 = .error e0 → diagnoseOnce a1 = .ok d →
      Diagnose a0 a1 = .ok d ∧ diagnoseAttempts a0 = 2) ∧
    (∀ e0 e1, diagnoseOnce a0 = .error e0 → diagnoseOnce a1 = .error e1 →
      Diagnose a0 a1 = .error ("groq diagnosis failed after 2 attempts: " ++ e1) ∧
      diagnoseAttempts a0 = 2) ∧
    (∀ d, d.rootCause = "" →
      ∃ e, diagnoseOnce (GroqHTTP.choice (.ok d)) = .error e) := by
  refine ⟨?_, ?_, ?_, ?_⟩
  · intro d h
    constructor
    · unfold Diagnose
      rw [h]
    · unfold diagnoseAttempts
      rw [h]
  · intro e0 d h0 h1
    constructor
    · unfold Diagnose
      rw [h0, h1]
    · unfold diagnoseAttempts
      rw [h0]
  · intro e0 e1 h0 h1
    constructor
    · unfold Diagnose
      rw [h0, h1]
    · unfold diagnoseAttempts
      rw [h0]
  · intro d h
    refine ⟨"LLM returned empty rootCause — likely a prompt/format issue", ?_⟩
    simp [diagnoseOnce, parseDiagnosis, h]

/-- Witness for Diagnose_retry_policy: a first attempt whose content
unmarshals with an empty rootCause fails, and a successful second attempt
makes the whole call succeed with exactly two attempts. -/
theorem Diagnose_retry_policy_witness :
    Diagnose (GroqHTTP.choice (.ok ⟨"", "", "joke"⟩)) (GroqHTTP.choice (.ok diagNoPatch)) =
        .ok diagNoPatch ∧
      diagnoseAttempts (GroqHTTP.choice (.ok ⟨"", "", "joke"⟩)) = 2 :=
  (Diagnose_retry_policy (GroqHTTP.choice (.ok ⟨"", "", "joke"⟩))
      (GroqHTTP.choice (.ok diagNoPatch))).2.1
    ("LLM returned empty rootCause — likely a prompt/format issue") diagNoPatch
    (by rfl) (by rfl)

/-- C5: ApplyYAMLPatch applied with an empty patch string returns the
original content unchanged and no error, whatever the conversion
collaborators do — the empty patch is a left identity for patch
application. -/
theorem ApplyYAMLPatch_empty_patch (yamlToJSON : String → Except String String)
    (strategicMergePatch : String → String → Except String String)
    (jsonToYAML : String → Except String String)
    (currentYAML : String) :
    ApplyYAMLPatch yamlToJSON strategicMergePatch jsonToYAML currentYAML "" =
      .ok currentYAML := by
  unfold ApplyYAMLPatch
  rw [if_pos rfl]

/-- C6: when the patched manifest is byte-identical to the fetched original,
CreateHealingPR errors having issued no repository write at all; and any step
failure prevents every later write call (a default-branch failure issues no
write, a branch-creation failure issues no commit and no PR, a commit failure
issues no PR). -/
theorem CreateHealingPR_noop_and_abort (env : GHEnv) (deploymentName : String)
    (diag : Diagnosis) (ts : Nat) :
    (∀ path content sha,
      env.findFile = .ok (path, content, sha) →
      ApplyYAMLPatch env.yamlToJSON env.strategicMergePatch env.jsonToYAML content
          diag.yamlPatch = .ok content →
      (∃ e, (CreateHealingPR env deploymentName diag ts).1 = .error e) ∧
        (CreateHealingPR env deploymentName diag ts).2 = []) ∧
    ((∃ e, env.defaultBranch = .error e) →
      (CreateHealingPR env deploymentName diag ts).2 = []) ∧
    ((∃ e, env.createBranchRes = .error e) →
      GHWrite.commitFile ∉ (CreateHealingPR env deploymentName diag ts).2 ∧
        GHWrite.openPR ∉ (CreateHealingPR env deploymentName diag ts).2) ∧
    ((∃ e, env.commitRes = .error e) →
      GHWrite.openPR ∉ (CreateHealingPR env deploymentName diag ts).2) := by
  refine ⟨?_, ?_, ?_, ?_⟩
  · intro path content sha hff hap
    refine ⟨⟨"patch produced no change to " ++ path ++ " — skipping PR", ?_⟩, ?_⟩ <;>
      simp [CreateHealingPR, hff, hap]
  · rintro ⟨e, hdb⟩
    cases hff : env.findFile with
    | error e2 => simp [CreateHealingPR, hff]
    | ok t =>
      obtain ⟨path, content, sha⟩ := t
      cases hap : ApplyYAMLPatch env.yamlToJSON env.strategicMergePatch env.jsonToYAML
          content diag.yamlPatch with
      | error e2 => simp [CreateHealingPR, hff, hap]
      | ok patched =>
        by_cases hnoop : patched = content
        · simp [CreateHealingPR, hff, hap, hnoop]
        · simp [CreateHealingPR, hff, hap, hnoop, hdb]
  · rintro ⟨e, hcb⟩
    cases hff : env.findFile with
    | error e2 => simp [CreateHealingPR, hff]
    | ok t =>
      obtain ⟨path, content, sha⟩ := t
      cases hap : ApplyYAMLPatch env.yamlToJSON env.strategicMergePatch env.jsonToYAML
          content diag.yamlPatch with
      | error e2 => simp [CreateHealingPR, hff, hap]
      | ok patched =>
        by_cases hnoop : patched = content
        · simp [CreateHealingPR, hff, hap, hnoop]
        · cases hdb : env.defaultBranch with
          | error e2 => simp [CreateHealingPR, hff, hap, hnoop, hdb]
          | ok base => simp [CreateHealingPR, hff, hap, hnoop, hdb, hcb]
  · rintro ⟨e, hcm⟩
    cases hff : env.findFile with
    | error e2 => simp [CreateHealingPR, hff]
    | ok t =>
      obtain ⟨path, content, sha⟩ := t
      cases hap : ApplyYAMLPatch env.yamlToJSON env.strategicMergePatch env.jsonToYAML
          content diag.yamlPatch with
      | error e2 => simp [CreateHealingPR, hff, hap]
      | ok patched =>
        by_cases hnoop : patched = content
        · simp [CreateHealingPR, hff, hap, hnoop]
        · cases hdb : env.defaultBranch with
          | error e2 => simp [CreateHealingPR, hff, hap, hnoop, hdb]
          | ok base =>
            cases hcb : env.createBranchRes with
            | error e2 => simp [CreateHealingPR, hff, hap, hnoop, hdb, hcb]
            | ok u => simp [CreateHealingPR, hff, hap, hnoop, hdb, hcb, hcm]

/-- Witness for CreateHealingPR_noop_and_abort: in the ghNoop environment the
merge returns the original content, so the run errors with an empty write
trace. -/
theorem CreateHealingPR_noop_and_abort_witness :
    (∃ e, (CreateHealingPR ghNoop "joke" diagPatch 100).1 = .error e) ∧
      (CreateHealingPR ghNoop "joke" diagPatch 100).2 = [] :=
  (CreateHealingPR_noop_and_abort ghNoop "joke" diagPatch 100).1
    "deploy/joke/deployment.yaml" "content" "sha1" (by rfl) (by rfl)

/-- C7 counterexample: a Normal-class event naming one of the workload pods
passes the source filter (which keeps events that are warning-class OR
involve the workload or its pods), so the returned list is not restricted to
warning-class events as the claim states. -/
theorem FetchKubeEvents_counterexample :
    FetchKubeEvents (.ok [evNormal]) (["pod-1"]) = .ok ([trimEvent evNormal]) ∧
      (trimEvent evNormal).etype = "Normal" ∧ (trimEvent evNormal).etype ≠ "Warning" := by
  refine ⟨by rfl, by rfl, by decide⟩

/-- C7 amended: FetchKubeEvents returns only events drawn from the namespace
event list that are warning-class OR name the workload or one of its pods as
the involved object, sorted newest-first by last-seen time and capped at 20
entries. -/
theorem FetchKubeEvents_spec (items : List EventRec) (involved : List String)
    (res : List KubeEvent)
    (h : FetchKubeEvents (.ok items) involved = .ok res) :
    res.length ≤ maxEvents ∧
    List.Pairwise newerFirst res ∧
    (∀ k ∈ res, ∃ ev ∈ items,
      k = trimEvent ev ∧
        (ev.etype = "Warning" ∨ involved.contains ev.involvedName = true)) := by
  have hres : (List.insertionSort newerFirst
      ((items.filter (keepEvent involved)).map trimEvent)).take maxEvents = res := by
    simp [FetchKubeEvents] at h
    exact h
  subst hres
  refine ⟨?_, ?_, ?_⟩
  · exact List.length_take_le _ _
  · exact List.Pairwise.sublist (List.take_sublist _ _)
      (List.sorted_insertionSort newerFirst _)
  · intro k hk
    have hk1 : k ∈ List.insertionSort newerFirst
        ((items.filter (keepEvent involved)).map trimEvent) :=
      (List.take_sublist _ _).subset hk
    have hk2 : k ∈ (items.filter (keepEvent involved)).map trimEvent :=
      (List.perm_insertionSort newerFirst _).subset hk1
    obtain ⟨ev, hev, hevk⟩ := List.mem_map.mp hk2
    have hmem := List.mem_filter.mp hev
    refine ⟨ev, hmem.1, hevk.symm, ?_⟩
    simpa [keepEvent] using hmem.2

/-- Witness for FetchKubeEvents_spec: a Warning event about an unrelated
object and a Normal event about pod-1 are both kept, sorted newest-first. -/
theorem FetchKubeEvents_spec_witness :
    ([trimEvent evWarnOther, trimEvent evNormal] : List KubeEvent).length ≤ maxEvents ∧
    List.Pairwise newerFirst [trimEvent evWarnOther, trimEvent evNormal] ∧
    (∀ k ∈ [trimEvent evWarnOther, trimEvent evNormal], ∃ ev ∈ [evNormal, evWarnOther],
      k = trimEvent ev ∧
        (ev.etype = "Warning" ∨ ["pod-1"].contains ev.involvedName = true)) :=
  FetchKubeEvents_spec [evNormal, evWarnOther] ["pod-1"]
    [trimEvent evWarnOther, trimEvent evNormal] (by rfl)

/-- C8: Collect returns a hard error exactly when the selector is missing or
the pod list fails; on success every container whose log fetch failed carries
the explanatory placeholder, an event-list failure yields an empty event
list, and a missing metrics backend or failed metrics query yields an absent
metrics section. -/
theorem Collect_fault_tolerance (env : CollectEnv) (d : Deployment)
    (anomalyReason : String) (now : Nat) :
    ((∃ e, Collect env d anomalyReason now = .error e) ↔
      (d.matchLabels = none ∨ ∃ e, env.podsRes = .error e)) ∧
    (∀ obs, Collect env d anomalyReason now = .ok obs →
      (∀ ps ∈ obs.pods, ∀ c ∈ ps.containers, ∀ e,
        env.logFetch ps.name c.name = .error e →
          c.lastLogs = "[log unavailable: " ++ e ++ "]") ∧
      (∀ e, env.eventsListRes = .error e → obs.kubeEvents = []) ∧
      ((env.prom = none ∨ ∃ e, env.prom = some (.error e)) → obs.metrics = none)) := by
  constructor
  · cases hm : d.matchLabels with
    | none =>
      constructor
      · intro _
        exact Or.inl rfl
      · intro _
        exact ⟨"deployment " ++ d.ns ++ "/" ++ d.name ++ " has no selector",
          by simp [Collect, hm]⟩
    | some sel =>
      cases hp : env.podsRes with
      | error e =>
        constructor
        · intro _
          exact Or.inr ⟨e, rfl⟩
        · intro _
          exact ⟨"listing pods: " ++ e, by simp [Collect, hm, hp]⟩
      | ok pods =>
        constructor
        · rintro ⟨e, he⟩
          simp [Collect, hm, hp] at he
        · rintro (hnone | ⟨e, he⟩)
          · simp at hnone
          · simp at he
  · intro obs hobs
    cases hm : d.matchLabels with
    | none => simp [Collect, hm] at hobs
    | some sel =>
      cases hp : env.podsRes with
      | error e => simp [Collect, hm, hp] at hobs
      | ok pods =>
        simp only [Collect, hm, hp, Except.ok.injEq] at hobs
        subst hobs
        refine ⟨?_, ?_, ?_⟩
        · intro ps hps c hc e he
          simp only [] at hps
          obtain ⟨p, hpmem, hpeq⟩ := List.mem_map.mp hps
          subst hpeq
          simp only [collectPod] at hc
          obtain ⟨cs, hcsmem, hceq⟩ := List.mem_map.mp hc
          subst hceq
          simp only [collectPod, collectContainer] at he ⊢
          rw [he]
        · intro e he
          simp [FetchKubeEvents, he]
        · rintro (hnone | ⟨e, he⟩)
          · simp [hnone]
          · simp [he]

/-- Witness for Collect_fault_tolerance: in collectEnvC the pod list succeeds
while logs, events and metrics all fail, and the snapshot is still returned
with the placeholder log text, an empty event list and no metrics. -/
theorem Collect_fault_tolerance_witness :
    (∀ ps ∈ (collectPod collectEnvC pC :: ([] : List PodSnapshot)), ∀ c ∈ ps.containers, ∀ e,
      collectEnvC.logFetch ps.name c.name = .error e →
        c.lastLogs = "[log unavailable: " ++ e ++ "]") ∧
    (∀ e, collectEnvC.eventsListRes = .error e →
      (Collect collectEnvC dC "crash" 7).toOption.elim [] (fun o => o.kubeEvents) = []) := by
  have h := (Collect_fault_tolerance collectEnvC dC "crash" 7).2
      { deploymentName := "joke", ns := "default", anomalyReason := "crash", collectedAt := 7
        pods := [collectPod collectEnvC pC]
        kubeEvents := [], metrics := none } (by rfl)
  refine ⟨?_, ?_⟩
  · intro ps hps c hc e he
    exact h.1 ps (by simpa using hps) c hc e he
  · intro e he
    have := h.2.1 e he
    rfl

/-- C9: a reconcile invocation only ever mutates the status sub-object of
the stored watch resource through status patches; its spec (and metadata
identity) is never modified, on every control path. -/
theorem Reconcile_spec_frame (env : ReconcileEnv) (watch : AegisWatch) :
    (Reconcile env watch).store.spec = watch.spec ∧
    (Reconcile env watch).store.ns = watch.ns ∧
    (Reconcile env watch).store.name = watch.name := by
  cases hdep : env.deployment with
  | none => simp [Reconcile, hdep]
  | some d =>
    cases hda : detectAnomalyE d env.podsRes
        (if watch.spec.restartThreshold = 0 then 3 else watch.spec.restartThreshold) with
    | error e => simp [Reconcile, hdep, hda]
    | ok pr =>
      obtain ⟨anomaly, reason⟩ := pr
      cases anomaly with
      | false => simp [Reconcile, hdep, hda, patchStatus]
      | true =>
        by_cases hcap : watch.status.healingScore ≥ MaxHealingAttempts
        · simp [Reconcile, hdep, hda, hcap, patchStatus]
        · cases hdg : env.diagnosisRes with
          | error e => simp [Reconcile, hdep, hda, hcap, hdg, patchStatus]
          | ok diag => simp [Reconcile, hdep, hda, hcap, hdg, patchStatus]

/-- C1 counterexample: in a reconcile cycle at the healing cap the controller
also emits the AnomalyDetected warning event before the HealingCapReached
event, so the manual-intervention event is not the only observable effect of
the cycle. -/
theorem Reconcile_cap_counterexample :
    wCap.status.healingScore ≥ MaxHealingAttempts ∧
    (∃ r, detectAnomalyE dC envCap.podsRes 3 = .ok (true, r)) ∧
    (Reconcile envCap wCap).events ≠ [⟨"Warning", "HealingCapReached"⟩] := by
  refine ⟨by decide,
    ⟨"pod default/joke-1 container \"app\" is in CrashLoopBackOff", by rfl⟩, by decide⟩

/-- C1 amended: when an anomaly is detected and the healing score is at or
above the cap, the cycle never invokes the collector, the diagnosis engine or
PR creation, leaves the stored resource (hence its phase) unchanged, sends no
notification and requeues after the fixed interval; its observable effects
are exactly the AnomalyDetected warning event followed by the
HealingCapReached manual-intervention event. -/
theorem Reconcile_cap_guard (env : ReconcileEnv) (watch : AegisWatch) (d : Deployment)
    (r : String)
    (hd : env.deployment = some d)
    (ha : detectAnomalyE d env.podsRes
      (if watch.spec.restartThreshold = 0 then 3 else watch.spec.restartThreshold) =
        .ok (true, r))
    (hcap : watch.status.healingScore ≥ MaxHealingAttempts) :
    (Reconcile env watch).llmCalled = false ∧
    (Reconcile env watch).prCalled = false ∧
    (Reconcile env watch).collectorCalled = false ∧
    (Reconcile env watch).store = watch ∧
    (Reconcile env watch).events =
      [⟨"Warning", "AnomalyDetected"⟩, ⟨"Warning", "HealingCapReached"⟩] ∧
    (Reconcile env watch).notification = none ∧
    (Reconcile env watch).res = .requeueAfter := by
  simp [Reconcile, hd, ha, hcap]

/-- Witness for Reconcile_cap_guard: the concrete cycle envCap against wCap
(healing score 5) stops at the cap guard. -/
theorem Reconcile_cap_guard_witness :
    (Reconcile envCap wCap).llmCalled = false ∧
    (Reconcile envCap wCap).prCalled = false ∧
    (Reconcile envCap wCap).collectorCalled = false ∧
    (Reconcile envCap wCap).store = wCap ∧
    (Reconcile envCap wCap).events =
      [⟨"Warning", "AnomalyDetected"⟩, ⟨"Warning", "HealingCapReached"⟩] ∧
    (Reconcile envCap wCap).notification = none ∧
    (Reconcile envCap wCap).res = .requeueAfter :=
  Reconcile_cap_guard envCap wCap dC
    ("pod default/joke-1 container \"app\" is in CrashLoopBackOff")
    (by rfl) (by rfl) (by decide)

/-- C4: in a cycle that reaches the final status update, the healing score is
incremented and lastPRUrl is recorded exactly when the remediation attempt
reported a PR URL; when remediation was skipped (safe mode or empty patch,
both of which report no URL) or failed, both fields are unchanged. -/
theorem Reconcile_healingScore_iff (env : ReconcileEnv) (watch : AegisWatch) (d : Deployment)
    (r : String) (diag : Diagnosis)
    (hd : env.deployment = some d)
    (ha : detectAnomalyE d env.podsRes
      (if watch.spec.restartThreshold = 0 then 3 else watch.spec.restartThreshold) =
        .ok (true, r))
    (hcap : watch.status.healingScore < MaxHealingAttempts)
    (hdiag : env.diagnosisRes = .ok diag) :
    ((maybeOpenPR env watch d diag).prURL ≠ "" →
      (Reconcile env watch).store.status.healingScore = watch.status.healingScore + 1 ∧
      (Reconcile env watch).store.status.lastPRUrl = (maybeOpenPR env watch d diag).prURL) ∧
    ((maybeOpenPR env watch d diag).prURL = "" →
      (Reconcile env watch).store.status.healingScore = watch.status.healingScore ∧
      (Reconcile env watch).store.status.lastPRUrl = watch.status.lastPRUrl) ∧
    (watch.spec.safeMode = true → (maybeOpenPR env watch d diag).prURL = "") ∧
    (diag.yamlPatch = "" → (maybeOpenPR env watch d diag).prURL = "") := by
  have hnotcap : ¬ watch.status.healingScore ≥ MaxHealingAttempts := not_le.mpr hcap
  refine ⟨?_, ?_, ?_, ?_⟩
  · intro hurl
    constructor <;>
      simp [Reconcile, hd, ha, hnotcap, hdiag, patchStatus, hurl]
  · intro hurl
    constructor <;>
      simp [Reconcile, hd, ha, hnotcap, hdiag, patchStatus, hurl]
  · intro hsafe
    simp [maybeOpenPR, hsafe]
  · intro hpatch
    by_cases hsafe : watch.spec.safeMode
    · simp [maybeOpenPR, hsafe]
    · simp [maybeOpenPR, hsafe, hpatch]

/-- Witness for Reconcile_healingScore_iff: the concrete cycle envPR against
wC opens a PR, so the score becomes 1 and lastPRUrl is recorded. -/
theorem Reconcile_healingScore_iff_witness :
    (Reconcile envPR wC).store.status.healingScore = wC.status.healingScore + 1 ∧
    (Reconcile envPR wC).store.status.lastPRUrl = (maybeOpenPR envPR wC dC diagPatch).prURL :=
  (Reconcile_healingScore_iff envPR wC dC
    ("pod default/joke-1 container \"app\" is in CrashLoopBackOff") diagPatch
    (by rfl) (by rfl) (by decide) (by rfl)).1 (by decide)

/-- C10: in a cycle that reaches the notification step, the notified healing
score is always the pre-cycle score plus one, so whenever remediation was
skipped or failed (no PR URL) the notified score exceeds the persisted score
by one. -/
theorem Reconcile_notification_score (env : ReconcileEnv) (watch : AegisWatch) (d : Deployment)
    (r : String) (diag : Diagnosis)
    (hd : env.deployment = some d)
    (ha : detectAnomalyE d env.podsRes
      (if watch.spec.restartThreshold = 0 then 3 else watch.spec.restartThreshold) =
        .ok (true, r))
    (hcap : watch.status.healingScore < MaxHealingAttempts)
    (hdiag : env.diagnosisRes = .ok diag) :
    ∃ u, (Reconcile env watch).notification = some u ∧
      u.healingScore = watch.status.healingScore + 1 ∧
      ((maybeOpenPR env watch d diag).prURL = "" →
        u.healingScore = (Reconcile env watch).store.status.healingScore + 1) := by
  have hnotcap : ¬ watch.status.healingScore ≥ MaxHealingAttempts := not_le.mpr hcap
  refine ⟨sendNotificationPayload watch diag (maybeOpenPR env watch d diag).prURL
    (if watch.spec.targetRef.ns = "" then watch.ns else watch.spec.targetRef.ns), ?_, ?_, ?_⟩
  · simp [Reconcile, hd, ha, hnotcap, hdiag]
  · rfl
  · intro hurl
    simp [Reconcile, hd, ha, hnotcap, hdiag, patchStatus, hurl, sendNotificationPayload]

/-- Witness for Reconcile_notification_score: in the concrete skip cycle
envHeal against wC the webhook payload reports score 1 while the persisted
score stays 0. -/
theorem Reconcile_notification_score_witness :
    ∃ u, (Reconcile envHeal wC).notification = some u ∧
      u.healingScore = wC.status.healingScore + 1 ∧
      ((maybeOpenPR envHeal wC dC diagNoPatch).prURL = "" →
        u.healingScore = (Reconcile envHeal wC).store.status.healingScore + 1) :=
  Reconcile_notification_score envHeal wC dC
    ("pod default/joke-1 container \"app\" is in CrashLoopBackOff") diagNoPatch
    (by rfl) (by rfl) (by decide) (by rfl)

end GopherGuard
